import Mathlib

/-!
Verification of the profile README updater (`scripts/update-readme.js`).

The repository holds two near-duplicate versions of the script: the current
one built around a shared `createRow`/`CONTENT_WIDTH` layout helper
(referred to below as V1) and an older one with inline padding arithmetic
and `.slice` truncation (referred to below as V2).  Both are embedded where
claims refer to them.

Conventions of the embedding:
- JavaScript values occurring in API payloads and stat fields are modelled
  by `JsVal`; absent object properties read as `JsVal.undefined`.
- JS numbers are modelled as exact fractions `JsNum` (an `Int` numerator
  and `Nat` denominator, not normalized); every numeric literal of the
  source is an integer or a short decimal, represented exactly.
- JS string lengths (`.length`, `.padEnd`, `.slice`) count UTF-16 code
  units; `utf16Len` and friends reproduce that.  Slicing that would cut an
  astral code point in half drops the half code point (JS would keep a lone
  surrogate, which `String` cannot represent).
- Code that can throw (`TypeError` on property access of `undefined`,
  `.toFixed` on a non-number) is modelled in `Except String`; a total
  return type shows the corresponding JS function cannot throw.
-/

-- ═══════════════ JS value model ═══════════════

/-- A JS number as an exact (unnormalized) fraction.  All numeric values in
the source are integers or short decimals, so this is exact. -/
structure JsNum where
  num : Int
  den : Nat

/-- Dynamically typed JS/JSON values as the collectors see them. -/
inductive JsVal where
  | undefined
  | null
  | nan
  | bool (b : Bool)
  | num (q : JsNum)
  | str (s : String)
  | obj (fields : List (String × JsVal))

/-- The JS number literal `0`. -/
def js0 : JsVal := .num ⟨0, 1⟩

/-- JS truthiness: `undefined`, `null`, `NaN`, `false`, `0`, `""` are falsy. -/
def truthy : JsVal → Bool
  | .undefined => false
  | .null => false
  | .nan => false
  | .bool b => b
  | .num x => !(x.num == 0)
  | .str s => !(s == "")
  | .obj _ => true

/-- JS `x || y`. -/
def jsOr (x y : JsVal) : JsVal := if truthy x then x else y

/-- Property read `v.k`: `undefined` when the key is absent or the value is
not an object.  (Reading a property of `null`/`undefined` throws in JS; the
collectors only read properties after a truthiness guard, so that case is
unreachable in the embedded code.) -/
def jsGet : JsVal → String → JsVal
  | .obj fs, k => (List.lookup k fs).getD .undefined
  | _, _ => .undefined

/-- Whether a value is `undefined` (for `!== undefined` tests). -/
def JsVal.isUndefined : JsVal → Bool
  | .undefined => true
  | _ => false

/-- Whether a value is a (non-NaN) JS number. -/
def JsVal.isNumber : JsVal → Bool
  | .num _ => true
  | _ => false

/-- Strict equality test `v === "success"` from `fetchLeetCodeStats`. -/
def isSuccessStr : JsVal → Bool
  | .str s => s == "success"
  | _ => false

/-- Digits to a natural number (helper for the `parseInt`/`parseFloat` model). -/
def digitsToNat (l : List Char) : Nat :=
  l.foldl (fun a c => 10 * a + (c.toNat - 48)) 0

/-- Unsigned decimal literal at the head of the character list, as a fraction. -/
def parseUnsignedDec (l : List Char) : Option JsNum :=
  let ds := l.takeWhile Char.isDigit
  if ds.isEmpty then none
  else
    match l.drop ds.length with
    | '.' :: r2 =>
      let fs := r2.takeWhile Char.isDigit
      some ⟨(digitsToNat ds * 10 ^ fs.length + digitsToNat fs : Nat), 10 ^ fs.length⟩
    | _ => some ⟨(digitsToNat ds : Nat), 1⟩

/-- Digit run to a number, `NaN` when the run is empty (helper for `parseInt`). -/
def parseNatOr (ds : List Char) (neg : Bool) : JsVal :=
  if ds.isEmpty then .nan
  else .num ⟨if neg then -(digitsToNat ds : Int) else (digitsToNat ds : Int), 1⟩

/-- Leading integer of a string, as JS `parseInt` reads it. -/
def parseIntOfChars (l : List Char) : JsVal :=
  match l.dropWhile (fun c => c = ' ') with
  | '-' :: rest => parseNatOr (rest.takeWhile Char.isDigit) true
  | '+' :: rest => parseNatOr (rest.takeWhile Char.isDigit) false
  | l' => parseNatOr (l'.takeWhile Char.isDigit) false

/-- JS `parseInt(v)`: the argument is coerced to a string and its leading
integer is read; for a finite number that is truncation toward zero. -/
def parseIntJs : JsVal → JsVal
  | .num x => if x.den = 0 then .nan else .num ⟨x.num.tdiv x.den, 1⟩
  | .str s => parseIntOfChars s.data
  | _ => .nan

/-- Signed decimal literal, `NaN` when absent (helper for `parseFloat`). -/
def parseDecOr (l : List Char) (neg : Bool) : JsVal :=
  match parseUnsignedDec l with
  | some x => .num (if neg then ⟨-x.num, x.den⟩ else x)
  | none => .nan

/-- Leading decimal of a string, as JS `parseFloat` reads it. -/
def parseFloatOfChars (l : List Char) : JsVal :=
  match l.dropWhile (fun c => c = ' ') with
  | '-' :: rest => parseDecOr rest true
  | '+' :: rest => parseDecOr rest false
  | l' => parseDecOr l' false

/-- JS `parseFloat(v)`. -/
def parseFloatJs : JsVal → JsVal
  | .num x => .num x
  | .str s => parseFloatOfChars s.data
  | _ => .nan

/-- JS `String(number)`.  Exact for integral values (the only ones a claim
inspects); for non-integral values the printed form of the fraction stands
in for JS shortest-round-trip float printing. -/
def jsNumToString (x : JsNum) : String :=
  if x.num % (x.den : Int) = 0 ∧ x.den ≠ 0 then toString (x.num / (x.den : Int))
  else toString x.num ++ "/" ++ toString x.den

/-- JS `String(v)` for the value shapes the renderer passes around. -/
def jsValToString : JsVal → String
  | .undefined => "undefined"
  | .null => "null"
  | .nan => "NaN"
  | .bool b => if b then "true" else "false"
  | .num x => jsNumToString x
  | .str s => s
  | .obj _ => "[object Object]"

-- ═══════════════ HTTP fetcher and the three collectors ═══════════════

/-- Outcome of one HTTPS GET as `fetchAPI` distinguishes them: a transport
error (the promise rejects), a body that is not valid JSON (resolves
`null`), or a parsed JSON payload. -/
inductive FetchOutcome where
  | transportError
  | malformed
  | payload (v : JsVal)

/-- `fetchAPI` (source lines 36-59): rejects on transport error, resolves
`null` on a JSON parse failure, otherwise resolves the parsed value. -/
def fetchAPI : FetchOutcome → Except Unit JsVal
  | .transportError => .error ()
  | .malformed => .ok .null
  | .payload v => .ok v

/-- Result shape of `fetchGitHubStats` on success. -/
structure GhFetched where
  followers : JsVal
  following : JsVal
  public_repos : JsVal
  total_stars : JsVal

/-- Result shape of `fetchLeetCodeStats` on success. -/
structure LcFetched where
  total_solved : JsVal
  easy : JsVal
  medium : JsVal
  hard : JsVal
  acceptance_rate : JsVal

/-- `fetchGitHubStats` (source lines 64-88).  The `try`/`catch` around the
awaited fetch is the `Except` match: a transport error is caught and `null`
(here `none`) returned; the total return type shows no exception escapes. -/
def fetchGitHubStats (o : FetchOutcome) : Option GhFetched :=
  match fetchAPI o with
  | .error _ => none
  | .ok data =>
    if truthy data then
      some ⟨jsOr (jsGet data "followers") js0,
            jsOr (jsGet data "following") js0,
            jsOr (jsGet data "public_repos") js0,
            jsOr (jsGet data "public_repos") js0⟩
    else none

/-- `fetchLeetCodeStats` (source lines 93-117): requires a truthy payload
carrying `status === "success"`, coerces the counts with `parseInt` and the
rate with `parseFloat`, each with `|| 0`; returns `null` otherwise. -/
def fetchLeetCodeStats (o : FetchOutcome) : Option LcFetched :=
  match fetchAPI o with
  | .error _ => none
  | .ok data =>
    if truthy data && isSuccessStr (jsGet data "status") then
      some ⟨jsOr (parseIntJs (jsGet data "totalSolved")) js0,
            jsOr (parseIntJs (jsGet data "easySolved")) js0,
            jsOr (parseIntJs (jsGet data "mediumSolved")) js0,
            jsOr (parseIntJs (jsGet data "hardSolved")) js0,
            jsOr (parseFloatJs (jsGet data "acceptanceRate")) js0⟩
    else none

/-- `fetchContributions` (source lines 122-144): returns `data.total_count`
when the payload is truthy and the field is not `undefined`, else `0`; a
caught transport error also yields `0`. -/
def fetchContributions (o : FetchOutcome) : JsVal :=
  match fetchAPI o with
  | .error _ => js0
  | .ok data =>
    if truthy data && !(jsGet data "total_count").isUndefined then jsGet data "total_count"
    else js0

-- ═══════════════ Profile record (data model) ═══════════════

/-- The `profile` sub-record. -/
structure Profile where
  name : Option String
  title : Option String
  location : Option String
  age : Option JsNum
  timezone : Option String
  tagline : Option String

/-- The `tech_stack` sub-record. -/
structure TechStack where
  languages : Option (List String)
  frontend : Option (List String)
  backend : Option (List String)
  databases : Option (List String)
  tools : Option (List String)

/-- The `current_mission` sub-record. -/
structure Mission where
  status : Option String
  mode : Option String
  weapons : Option (List String)
  weaknesses : Option (List String)
  next_level : Option String

/-- One entry of `current_projects`. -/
structure Project where
  name : Option String
  description : Option String
  tech : Option (List String)
  status : Option String

/-- The `goals` sub-record. -/
structure Goals where
  short_term : Option (List String)
  long_term : Option (List String)

/-- The `social` sub-record. -/
structure Social where
  github : Option String
  linkedin : Option String
  twitter : Option String
  email : Option String
  portfolio : Option String

/-- The `github_stats` sub-record; `none` fields are absent properties. -/
structure GhStats where
  followers : Option JsVal
  following : Option JsVal
  public_repos : Option JsVal
  total_stars : Option JsVal
  total_contributions : Option JsVal
  last_updated : Option String

/-- The `leetcode_stats` sub-record. -/
structure LcStats where
  total_solved : Option JsVal
  easy : Option JsVal
  medium : Option JsVal
  hard : Option JsVal
  acceptance_rate : Option JsVal
  last_updated : Option String

/-- The whole persisted profile record (`profileData`). -/
structure ProfileData where
  profile : Option Profile
  tech_stack : Option TechStack
  current_mission : Option Mission
  current_projects : Option (List Project)
  goals : Option Goals
  social : Option Social
  github_stats : Option GhStats
  leetcode_stats : Option LcStats

/-- Read of an optional stat property (`undefined` when absent). -/
def optGet (o : Option JsVal) : JsVal := o.getD .undefined

/-- The `{}` a missing `github_stats` is replaced with (source line 448). -/
def ghEmpty : GhStats := ⟨none, none, none, none, none, none⟩

/-- The all-zero initializer a missing `leetcode_stats` is replaced with
(source lines 465-473); note it carries no `last_updated`. -/
def lcZeroInit : LcStats := ⟨some js0, some js0, some js0, some js0, some js0, none⟩

/-- Merge of the fetched GitHub stats into `profileData.github_stats`
(source lines 446-462).  With a successful fetch every field is replaced
and `last_updated` stamped; otherwise only `total_contributions` is
defaulted with `|| 0` and nothing else changes (no stamp). -/
def mergeGithub (old : Option GhStats) (fetched : Option GhFetched)
    (contributions : JsVal) (today : String) : GhStats :=
  let base := old.getD ghEmpty
  match fetched with
  | some f =>
    ⟨some f.followers, some f.following, some f.public_repos, some f.total_stars,
     some (jsOr contributions js0), some today⟩
  | none =>
    ⟨base.followers, base.following, base.public_repos, base.total_stars,
     some (jsOr (optGet base.total_contributions) js0), base.last_updated⟩

/-- Merge of the fetched LeetCode stats into `profileData.leetcode_stats`
(source lines 464-481): a missing sub-record is first initialized to
all-zero defaults; a successful fetch replaces the stat fields and stamps
`last_updated`; a failed fetch leaves the (possibly just initialized)
sub-record as is. -/
def mergeLeetcode (old : Option LcStats) (fetched : Option LcFetched)
    (today : String) : LcStats :=
  let base := old.getD lcZeroInit
  match fetched with
  | some f =>
    ⟨some f.total_solved, some f.easy, some f.medium, some f.hard,
     some f.acceptance_rate, some today⟩
  | none => base

/-- The whole merge step of `main` (source lines 446-481): only the two
stat sub-records are written, everything else is carried over. -/
def mergeProfile (pd : ProfileData) (gh : Option GhFetched) (lc : Option LcFetched)
    (contributions : JsVal) (today : String) : ProfileData :=
  ⟨pd.profile, pd.tech_stack, pd.current_mission, pd.current_projects,
   pd.goals, pd.social,
   some (mergeGithub pd.github_stats gh contributions today),
   some (mergeLeetcode pd.leetcode_stats lc today)⟩

/-- A record with every optional part absent. -/
def pdEmpty : ProfileData := ⟨none, none, none, none, none, none, none, none⟩

-- ═══════════════ Collector lemmas ═══════════════

theorem parseNatOr_shape (ds : List Char) (neg : Bool) :
    (parseNatOr ds neg).isNumber = true ∨ parseNatOr ds neg = .nan := by
  unfold parseNatOr
  split
  · exact Or.inr rfl
  · exact Or.inl rfl

theorem parseIntOfChars_shape (l : List Char) :
    (parseIntOfChars l).isNumber = true ∨ parseIntOfChars l = .nan := by
  unfold parseIntOfChars
  split <;> exact parseNatOr_shape _ _

theorem parseIntJs_shape (v : JsVal) :
    (parseIntJs v).isNumber = true ∨ parseIntJs v = .nan := by
  cases v with
  | num x =>
    by_cases h : x.den = 0
    · exact Or.inr (by simp [parseIntJs, h])
    · exact Or.inl (by simp [parseIntJs, h, JsVal.isNumber])
  | str s => exact parseIntOfChars_shape s.data
  | undefined => exact Or.inr rfl
  | null => exact Or.inr rfl
  | nan => exact Or.inr rfl
  | bool b => exact Or.inr rfl
  | obj fs => exact Or.inr rfl

theorem parseDecOr_shape (l : List Char) (neg : Bool) :
    (parseDecOr l neg).isNumber = true ∨ parseDecOr l neg = .nan := by
  unfold parseDecOr
  split
  · exact Or.inl rfl
  · exact Or.inr rfl

theorem parseFloatJs_shape (v : JsVal) :
    (parseFloatJs v).isNumber = true ∨ parseFloatJs v = .nan := by
  cases v with
  | num x => exact Or.inl rfl
  | str s =>
    show (parseFloatOfChars s.data).isNumber = true ∨ parseFloatOfChars s.data = .nan
    unfold parseFloatOfChars
    split <;> exact parseDecOr_shape _ _
  | undefined => exact Or.inr rfl
  | null => exact Or.inr rfl
  | nan => exact Or.inr rfl
  | bool b => exact Or.inr rfl
  | obj fs => exact Or.inr rfl

theorem jsOr_js0_isNumber : ∀ x : JsVal,
    x.isNumber = true ∨ x = .nan → (jsOr x js0).isNumber = true
  | .num q, _ => by
    by_cases hq : q.num = 0 <;> simp [jsOr, truthy, hq, js0, JsVal.isNumber]
  | .nan, _ => rfl
  | .undefined, h | .null, h | .bool _, h | .str _, h | .obj _, h => by
    rcases h with h | h <;> simp [JsVal.isNumber] at h

-- ═══════════════ Claims about collectors and the merge step ═══════════════

/-- Claim C1: for every run of each of the three collectors in which the
underlying fetch fails with a transport error, the response body is not
valid JSON, or (for the practice-stats collector) the `status === "success"`
marker is absent, the collector returns its documented default — `null`
(`none`) for the host-stats collector, `null` for the practice-stats
collector, `0` for the contribution-count collector.  The collectors are
total functions of the fetch outcome (the `try`/`catch` of the source is
the `Except` match inside them), so no exception propagates out. -/
theorem C1_collector_failure_defaults :
    ∀ o : FetchOutcome,
      ((o = .transportError ∨ o = .malformed) →
        fetchGitHubStats o = none ∧ fetchLeetCodeStats o = none ∧
        fetchContributions o = js0) ∧
      (∀ v : JsVal, isSuccessStr (jsGet v "status") = false →
        fetchLeetCodeStats (.payload v) = none) := by
  intro o
  constructor
  · rintro (rfl | rfl) <;> exact ⟨rfl, rfl, rfl⟩
  · intro v hv
    simp [fetchLeetCodeStats, fetchAPI, hv]

/-- Witness for C1 at a transport error and at a payload with no success
marker. -/
theorem C1_witness :
    (fetchGitHubStats .transportError = none ∧
     fetchLeetCodeStats .transportError = none ∧
     fetchContributions .transportError = js0) ∧
    fetchLeetCodeStats (.payload (.obj [("status", .str "error")])) = none :=
  ⟨(C1_collector_failure_defaults .transportError).1 (Or.inl rfl),
   (C1_collector_failure_defaults .transportError).2
     (.obj [("status", .str "error")]) (by simp [jsGet, isSuccessStr])⟩

/-- Counterexample to claim C7: a truthy non-numeric API value is NOT
coerced to a number and does NOT become `0` — the host-stats collector
passes the string `"8"` through unchanged as the follower count. -/
theorem C7_counterexample :
    (fetchGitHubStats (.payload (.obj [("followers", .str "8")]))).map
        GhFetched.followers = some (.str "8") ∧
    JsVal.isNumber (.str "8") = false :=
  ⟨rfl, rfl⟩

/-- Claim C7 as amended: the practice-stats collector coerces all five of
its stat fields to numbers (`parseInt`/`parseFloat` with `|| 0`, so any
non-numeric value becomes `0`); in the host-stats collector absent or
falsy payload fields become `0`, but truthy non-numeric values pass
through uncoerced; the contribution-count collector yields `0` only when
the payload is falsy or its `total_count` field is `undefined`, and
otherwise returns `total_count` unchanged — even a present falsy or
non-numeric value such as `null` or a string passes through uncoerced. -/
theorem C7_amended_numeric_coercion :
    (∀ (o : FetchOutcome) (r : LcFetched), fetchLeetCodeStats o = some r →
      r.total_solved.isNumber = true ∧ r.easy.isNumber = true ∧
      r.medium.isNumber = true ∧ r.hard.isNumber = true ∧
      r.acceptance_rate.isNumber = true) ∧
    (∀ (v : JsVal) (r : GhFetched), jsGet v "followers" = .undefined →
      fetchGitHubStats (.payload v) = some r → r.followers = js0) ∧
    (∀ v : JsVal, truthy v = false ∨ jsGet v "total_count" = .undefined →
      fetchContributions (.payload v) = js0) ∧
    (∀ v : JsVal, truthy v = true → (jsGet v "total_count").isUndefined = false →
      fetchContributions (.payload v) = jsGet v "total_count") := by
  refine ⟨?_, ?_, ?_, ?_⟩
  · intro o r h
    cases o with
    | transportError => exact absurd h (by simp [fetchLeetCodeStats, fetchAPI])
    | malformed => exact absurd h (by simp [fetchLeetCodeStats, fetchAPI, truthy])
    | payload v =>
      rw [show fetchLeetCodeStats (.payload v) =
          (if truthy v && isSuccessStr (jsGet v "status") then
            some ⟨jsOr (parseIntJs (jsGet v "totalSolved")) js0,
              jsOr (parseIntJs (jsGet v "easySolved")) js0,
              jsOr (parseIntJs (jsGet v "mediumSolved")) js0,
              jsOr (parseIntJs (jsGet v "hardSolved")) js0,
              jsOr (parseFloatJs (jsGet v "acceptanceRate")) js0⟩
          else none) from rfl] at h
      by_cases hc : truthy v && isSuccessStr (jsGet v "status")
      · rw [if_pos hc] at h
        cases h
        exact ⟨jsOr_js0_isNumber _ (parseIntJs_shape _),
               jsOr_js0_isNumber _ (parseIntJs_shape _),
               jsOr_js0_isNumber _ (parseIntJs_shape _),
               jsOr_js0_isNumber _ (parseIntJs_shape _),
               jsOr_js0_isNumber _ (parseFloatJs_shape _)⟩
      · rw [if_neg hc] at h
        exact absurd h (by simp)
  · intro v r hu h
    rw [show fetchGitHubStats (.payload v) =
        (if truthy v then
          some ⟨jsOr (jsGet v "followers") js0, jsOr (jsGet v "following") js0,
            jsOr (jsGet v "public_repos") js0, jsOr (jsGet v "public_repos") js0⟩
        else none) from rfl] at h
    by_cases hc : truthy v
    · rw [if_pos hc] at h
      cases h
      show jsOr (jsGet v "followers") js0 = js0
      rw [hu]
      rfl
    · rw [if_neg hc] at h
      exact absurd h (by simp)
  · rintro v (ht | hu)
    · show (if truthy v && !(jsGet v "total_count").isUndefined then jsGet v "total_count"
        else js0) = js0
      rw [ht]
      simp
    · show (if truthy v && !(jsGet v "total_count").isUndefined then jsGet v "total_count"
        else js0) = js0
      rw [hu]
      simp [JsVal.isUndefined]
  · intro v ht hu
    show (if truthy v && !(jsGet v "total_count").isUndefined then jsGet v "total_count"
      else js0) = jsGet v "total_count"
    rw [ht, hu]
    simp

/-- Witness for C7's amended claim: a successful practice-stats payload
yields numeric fields; a host-stats payload with no follower field yields
`0`; a contribution payload without `total_count` yields `0`, while a
present falsy `total_count` (`null`) passes through unchanged. -/
theorem C7_amended_witness :
    ((.num ⟨145, 1⟩ : JsVal).isNumber = true ∧ (js0 : JsVal).isNumber = true ∧
     (js0 : JsVal).isNumber = true ∧ (js0 : JsVal).isNumber = true ∧
     (js0 : JsVal).isNumber = true) ∧
    (fetchGitHubStats (.payload (.obj [("following", .num ⟨5, 1⟩)]))).map
        GhFetched.followers = some js0 ∧
    fetchContributions (.payload (.obj [("page", .num ⟨1, 1⟩)])) = js0 ∧
    fetchContributions (.payload (.obj [("total_count", .null)])) = .null := by
  refine ⟨?_, ?_, ?_, ?_⟩
  · exact C7_amended_numeric_coercion.1
      (.payload (.obj [("status", .str "success"), ("totalSolved", .num ⟨145, 1⟩)]))
      ⟨.num ⟨145, 1⟩, js0, js0, js0, js0⟩ rfl
  · have h := C7_amended_numeric_coercion.2.1 (.obj [("following", .num ⟨5, 1⟩)])
      ⟨jsOr (jsGet (.obj [("following", .num ⟨5, 1⟩)]) "followers") js0,
       jsOr (jsGet (.obj [("following", .num ⟨5, 1⟩)]) "following") js0,
       jsOr (jsGet (.obj [("following", .num ⟨5, 1⟩)]) "public_repos") js0,
       jsOr (jsGet (.obj [("following", .num ⟨5, 1⟩)]) "public_repos") js0⟩
      rfl rfl
    rw [show fetchGitHubStats (.payload (.obj [("following", .num ⟨5, 1⟩)])) =
        some ⟨jsOr (jsGet (.obj [("following", .num ⟨5, 1⟩)]) "followers") js0,
          jsOr (jsGet (.obj [("following", .num ⟨5, 1⟩)]) "following") js0,
          jsOr (jsGet (.obj [("following", .num ⟨5, 1⟩)]) "public_repos") js0,
          jsOr (jsGet (.obj [("following", .num ⟨5, 1⟩)]) "public_repos") js0⟩ from rfl]
    exact congrArg some h
  · exact C7_amended_numeric_coercion.2.2.1 (.obj [("page", .num ⟨1, 1⟩)]) (Or.inr rfl)
  · exact C7_amended_numeric_coercion.2.2.2 (.obj [("total_count", .null)]) rfl rfl

/-- Claim C10: the merge step of `main` modifies only the `github_stats`
and `leetcode_stats` sub-records; `profile`, `tech_stack`,
`current_mission`, `current_projects`, `goals` and `social` in the record
passed on to save and render are exactly the loaded ones, for every loaded
record and every combination of collector outcomes. -/
theorem C10_merge_frame :
    ∀ (pd : ProfileData) (gh : Option GhFetched) (lc : Option LcFetched)
      (c : JsVal) (today : String),
      (mergeProfile pd gh lc c today).profile = pd.profile ∧
      (mergeProfile pd gh lc c today).tech_stack = pd.tech_stack ∧
      (mergeProfile pd gh lc c today).current_mission = pd.current_mission ∧
      (mergeProfile pd gh lc c today).current_projects = pd.current_projects ∧
      (mergeProfile pd gh lc c today).goals = pd.goals ∧
      (mergeProfile pd gh lc c today).social = pd.social :=
  fun _ _ _ _ _ => ⟨rfl, rfl, rfl, rfl, rfl, rfl⟩

/-- Counterexample to claim C3: starting from a record with both stat
sub-records absent and every fetch unavailable, the merged `github_stats`
carries NO `last_updated` stamp and NO zero-valued `followers` field (the
field is simply absent), and `leetcode_stats` gets no stamp either —
contradicting "all-zero stat fields and a last_updated stamp". -/
theorem C3_counterexample :
    ((mergeProfile pdEmpty none none js0 "2026-02-03").github_stats).map
        GhStats.last_updated = some none ∧
    ((mergeProfile pdEmpty none none js0 "2026-02-03").github_stats).map
        GhStats.followers = some none ∧
    ((mergeProfile pdEmpty none none js0 "2026-02-03").leetcode_stats).map
        LcStats.last_updated = some none :=
  ⟨rfl, rfl, rfl⟩

/-- Claim C3 as amended: after a merge cycle with all fetch results
unavailable both sub-records exist and the run cannot fail (the merge is a
total function).  A previously missing `leetcode_stats` becomes the
all-zero record, but with no `last_updated` stamp; a previously missing
`github_stats` gains only `total_contributions = 0` (its other stat fields
stay absent, and no stamp is added).  Previously existing sub-records keep
their stored values, except that `github_stats.total_contributions` is
re-defaulted with `|| 0`. -/
theorem C3_amended_failed_fetch_merge :
    ∀ (pd : ProfileData) (today : String),
      (mergeProfile pd none none js0 today).github_stats.isSome = true ∧
      (mergeProfile pd none none js0 today).leetcode_stats.isSome = true ∧
      (pd.github_stats = none →
        (mergeProfile pd none none js0 today).github_stats =
          some ⟨none, none, none, none, some js0, none⟩) ∧
      (pd.leetcode_stats = none →
        (mergeProfile pd none none js0 today).leetcode_stats = some lcZeroInit) ∧
      (∀ g, pd.github_stats = some g →
        (mergeProfile pd none none js0 today).github_stats =
          some ⟨g.followers, g.following, g.public_repos, g.total_stars,
                some (jsOr (optGet g.total_contributions) js0), g.last_updated⟩) ∧
      (∀ l, pd.leetcode_stats = some l →
        (mergeProfile pd none none js0 today).leetcode_stats = some l) := by
  intro pd today
  refine ⟨rfl, rfl, ?_, ?_, ?_, ?_⟩
  · intro h
    simp [mergeProfile, mergeGithub, h, ghEmpty, optGet, jsOr, truthy, js0]
  · intro h
    simp [mergeProfile, mergeLeetcode, h]
  · intro g h
    simp [mergeProfile, mergeGithub, h]
  · intro l h
    simp [mergeProfile, mergeLeetcode, h]

/-- Witness for C3's amended claim at the empty record. -/
theorem C3_amended_witness :
    (mergeProfile pdEmpty none none js0 "2026-02-03").github_stats =
      some ⟨none, none, none, none, some js0, none⟩ ∧
    (mergeProfile pdEmpty none none js0 "2026-02-03").leetcode_stats =
      some lcZeroInit :=
  ⟨(C3_amended_failed_fetch_merge pdEmpty "2026-02-03").2.2.1 rfl,
   (C3_amended_failed_fetch_merge pdEmpty "2026-02-03").2.2.2.1 rfl⟩

-- ═══════════════ UTF-16 string metrics and toFixed ═══════════════

/-- UTF-16 weight of one code point (astral code points are surrogate pairs). -/
def charW (c : Char) : Nat := if c.toNat < 65536 then 1 else 2

/-- JS `s.length`: the number of UTF-16 code units. -/
def utf16Len (s : String) : Nat := (s.data.map charW).sum

/-- A run of `n` spaces. -/
def mkSpaces (n : Nat) : String := ⟨List.replicate n ' '⟩

/-- JS `s.padEnd(n)`: append spaces up to `n` UTF-16 units; longer strings
are returned unchanged (never truncated). -/
def padEnd (s : String) (n : Nat) : String := s ++ mkSpaces (n - utf16Len s)

/-- JS `c.repeat(n)` for a one-code-unit string. -/
def repeatChar (c : Char) (n : Nat) : String := ⟨List.replicate n c⟩

/-- Take from the front while the UTF-16 budget lasts. -/
def utf16Take : Nat → List Char → List Char
  | _, [] => []
  | n, c :: cs => if charW c ≤ n then c :: utf16Take (n - charW c) cs else []

/-- JS `s.slice(0, n)` counting UTF-16 units. -/
def jsSlice (s : String) (n : Nat) : String := ⟨utf16Take n s.data⟩

/-- The integer nearest `100 * (n / d)`, half away from zero for `n ≥ 0`:
the digit source for `toFixed(2)`. -/
def round100 (n : Int) (d : Nat) : Int := Int.fdiv (200 * n + d) (2 * d)

/-- Two decimal digits. -/
def twoDigits (k : Nat) : String := ⟨[Nat.digitChar (k / 10 % 10), Nat.digitChar (k % 10)]⟩

/-- Print `n` hundredths with exactly two digits after the point. -/
def fixed2OfNat (n : Nat) : String := toString (n / 100) ++ "." ++ twoDigits (n % 100)

/-- JS `x.toFixed(2)` on a number. -/
def toFixed2 (x : JsNum) : String :=
  if x.num < 0 then "-" ++ fixed2OfNat (round100 (-x.num) x.den).toNat
  else fixed2OfNat (round100 x.num x.den).toNat

/-- `v.toFixed(2)` on an arbitrary value: only numbers (including `NaN`)
have `toFixed`; anything else throws a `TypeError`. -/
def toFixedJs : JsVal → Except String String
  | .num x => .ok (toFixed2 x)
  | .nan => .ok "NaN"
  | _ => .error "TypeError: toFixed is not a function"

/-- Lift an optional string field to the JS value the renderer receives. -/
def ofOptStr : Option String → JsVal
  | some s => .str s
  | none => .undefined

/-- Lift an optional numeric field to the JS value the renderer receives. -/
def ofOptNum : Option JsNum → JsVal
  | some q => .num q
  | none => .undefined

-- ═══════════════ V1 renderer (current script) ═══════════════

namespace V1

/-- `CONTENT_WIDTH` (source line 151). -/
def CONTENT_WIDTH : Nat := 73

/-- `createRow` (source lines 154-156): pad the content to the content
width and wrap it in vertical borders; `padEnd` never truncates. -/
def createRow (content : String) : String :=
  "│" ++ padEnd content CONTENT_WIDTH ++ "│"

/-- `labelRow` (source lines 159-162); every caller uses the default label
width 18, passed explicitly here. -/
def labelRow (label : String) (value : JsVal) : String :=
  createRow ("  " ++ padEnd label 18 ++ jsValToString value)

/-- The `headerText` of `sectionHeader`. -/
def sectionHeaderText (emoji title : String) : String :=
  "─ " ++ emoji ++ " " ++ title ++ " "

/-- `sectionHeader` (source lines 165-168).  (JS would throw a RangeError
for a header text longer than the width; the constant headers the source
uses never reach that, and the truncated Nat subtraction is exact there.) -/
def sectionHeader (emoji title : String) : String :=
  "┌" ++ sectionHeaderText emoji title
      ++ repeatChar '─' (CONTENT_WIDTH - utf16Len (sectionHeaderText emoji title)) ++ "┐"

/-- `sectionFooter` (source line 171). -/
def sectionFooter : String := "└" ++ repeatChar '─' CONTENT_WIDTH ++ "┘"

/-- `doubleHeader` (source line 174). -/
def doubleHeader : String := "╔" ++ repeatChar '═' CONTENT_WIDTH ++ "╗"

/-- `doubleFooter` (source line 175). -/
def doubleFooter : String := "╚" ++ repeatChar '═' CONTENT_WIDTH ++ "╝"

/-- `doubleRow` (source line 176). -/
def doubleRow (content : String) : String := "║" ++ padEnd content CONTENT_WIDTH ++ "║"

/-- Template interpolation `${x}` of a possibly-undefined string. -/
def interpStr (o : Option String) : String := o.getD "undefined"

/-- `x || ""` on an optional string field. -/
def orEmpty (o : Option String) : String := o.getD ""

/-- `x || "N/A"` on an optional string field (the empty string is falsy). -/
def orNA : Option String → String
  | some s => if s == "" then "N/A" else s
  | none => "N/A"

/-- `generateMatrixHeader` (source lines 181-196). -/
def generateMatrixHeader : String :=
  "\n" ++ doubleHeader ++ "\n"
  ++ doubleRow "" ++ "\n"
  ++ doubleRow "  ██╗    ██╗███████╗██╗      ██████╗ ██████╗ ███╗   ███╗███████╗███████╗" ++ "\n"
  ++ doubleRow "  ██║    ██║██╔════╝██║     ██╔════╝██╔═══██╗████╗ ████║██╔════╝██╔════╝" ++ "\n"
  ++ doubleRow "  ██║ █╗ ██║█████╗  ██║     ██║     ██║   ██║██╔████╔██║█████╗  █████╗" ++ "\n"
  ++ doubleRow "  ██║███╗██║██╔══╝  ██║     ██║     ██║   ██║██║╚██╔╝██║██╔══╝  ██╔══╝" ++ "\n"
  ++ doubleRow "  ╚███╔███╔╝███████╗███████╗╚██████╗╚██████╔╝██║ ╚═╝ ██║███████╗███████╗" ++ "\n"
  ++ doubleRow "   ╚══╝╚══╝ ╚══════╝╚══════╝ ╚═════╝ ╚═════╝ ╚═╝     ╚═╝╚══════╝╚══════╝" ++ "\n"
  ++ doubleRow "" ++ "\n"
  ++ doubleRow "                    Welcome to Abir Panda's GitHub Matrix" ++ "\n"
  ++ doubleRow "" ++ "\n"
  ++ doubleFooter ++ "\n"

/-- `generateProfileSection` (source lines 201-216): accessing `.name` on
an undefined `profile` throws; missing scalar fields interpolate as
`"undefined"`. -/
def generateProfileSection : Option Profile → Except String String
  | none => .error "TypeError: cannot read properties of undefined"
  | some p => .ok ("\n" ++ sectionHeader "👤" "PROFILE MATRIX" ++ "\n"
      ++ createRow "" ++ "\n"
      ++ labelRow "Name:" (ofOptStr p.name) ++ "\n"
      ++ labelRow "Title:" (ofOptStr p.title) ++ "\n"
      ++ labelRow "Location:" (ofOptStr p.location) ++ "\n"
      ++ labelRow "Age:" (ofOptNum p.age) ++ "\n"
      ++ labelRow "Timezone:" (ofOptStr p.timezone) ++ "\n"
      ++ labelRow "Status:" (.str "🟢 Online 24/7") ++ "\n"
      ++ createRow "" ++ "\n"
      ++ createRow ("  Tagline: \"" ++ interpStr p.tagline ++ "\"") ++ "\n"
      ++ createRow "" ++ "\n"
      ++ sectionFooter ++ "\n")

/-- `formatArray` = `arr.join(" • ")` (source line 222); `.join` on an
absent field throws. -/
def formatArray : Option (List String) → Except String String
  | none => .error "TypeError: cannot read properties of undefined"
  | some l => .ok (String.intercalate " • " l)

/-- `generateTechSection` (source lines 221-235): the joined summaries are
not truncated; fails when `tech_stack` or any of its five arrays is
absent. -/
def generateTechSection : Option TechStack → Except String String
  | none => .error "TypeError: cannot read properties of undefined"
  | some ts => do
    let langs ← formatArray ts.languages
    let fe ← formatArray ts.frontend
    let bk ← formatArray ts.backend
    let dbs ← formatArray ts.databases
    let tls ← formatArray ts.tools
    .ok ("\n" ++ sectionHeader "🛠️ " "TECH ARSENAL" ++ "\n"
      ++ createRow "" ++ "\n"
      ++ labelRow "Languages:" (.str langs) ++ "\n"
      ++ labelRow "Frontend:" (.str fe) ++ "\n"
      ++ labelRow "Backend:" (.str bk) ++ "\n"
      ++ labelRow "Databases:" (.str dbs) ++ "\n"
      ++ labelRow "Tools:" (.str tls) ++ "\n"
      ++ createRow "" ++ "\n"
      ++ sectionFooter ++ "\n")

/-- Default for `github || {followers: 0, following: 0, public_repos: 0}`
(source line 241). -/
def ghRenderDefault : GhStats := ⟨some js0, some js0, some js0, none, none, none⟩

/-- Default for `leetcode || {...}` (source lines 242-248). -/
def lcRenderDefault : LcStats := ⟨some js0, some js0, some js0, some js0, some js0, none⟩

/-- The inner `statRow` helper (source lines 252-255). -/
def statRow (label : String) (value : JsVal) : String :=
  createRow ("  │  " ++ padEnd label 18 ++ jsValToString value)

/-- The optional chain `profile?.github_stats?.total_contributions`
(source line 249): `generateREADME` passes the `profile` sub-record here,
which carries no `github_stats` property, so the chain yields `undefined`. -/
def profileChainContrib (_profile : Option Profile) : JsVal := .undefined

/-- `generateStatsSection` (source lines 240-277).  The only way it can
throw is `.toFixed(2)` on a truthy non-numeric stored acceptance rate;
`today` is the frozen date `new Date().toISOString().split("T")[0]`. -/
def generateStatsSection (github : Option GhStats) (leetcode : Option LcStats)
    (profile : Option Profile) (today : String) : Except String String :=
  let gh := github.getD ghRenderDefault
  let lc := leetcode.getD lcRenderDefault
  let contributions := jsOr (profileChainContrib profile) js0
  match toFixedJs (jsOr (optGet lc.acceptance_rate) js0) with
  | .error e => .error e
  | .ok ar =>
    .ok ("\n" ++ sectionHeader "📊" "LIVE METRICS (Updated Daily)" ++ "\n"
      ++ createRow "" ++ "\n"
      ++ createRow "  ╭─ GITHUB STATS" ++ "\n"
      ++ statRow "Followers:" (jsOr (optGet gh.followers) js0) ++ "\n"
      ++ statRow "Following:" (jsOr (optGet gh.following) js0) ++ "\n"
      ++ statRow "Repositories:" (jsOr (optGet gh.public_repos) js0) ++ "\n"
      ++ statRow "Contributions:" contributions ++ "\n"
      ++ createRow ("  ╰─ Last Updated: " ++ today) ++ "\n"
      ++ createRow "" ++ "\n"
      ++ createRow "  ╭─ LEETCODE STATS" ++ "\n"
      ++ statRow "Total Solved:" (jsOr (optGet lc.total_solved) js0) ++ "\n"
      ++ statRow "Easy:" (jsOr (optGet lc.easy) js0) ++ "\n"
      ++ statRow "Medium:" (jsOr (optGet lc.medium) js0) ++ "\n"
      ++ statRow "Hard:" (jsOr (optGet lc.hard) js0) ++ "\n"
      ++ statRow "Acceptance Rate:" (.str (ar ++ "%")) ++ "\n"
      ++ createRow ("  ╰─ Last Updated: " ++ today) ++ "\n"
      ++ createRow "" ++ "\n"
      ++ sectionFooter ++ "\n")

/-- Default mission object (source lines 283-289). -/
def missionDefault : Mission :=
  ⟨some "Unknown", some "Learning", some [], some [], some "Keep improving"⟩

/-- `generateMissionSection` (source lines 282-313): fully defensive,
cannot throw. -/
def generateMissionSection (mission : Option Mission) : String :=
  let m := mission.getD missionDefault
  "\n" ++ sectionHeader "🚀" "CURRENT MISSION STATUS" ++ "\n"
  ++ createRow "" ++ "\n"
  ++ labelRow "Status:" (.str (orEmpty m.status)) ++ "\n"
  ++ labelRow "Mode:" (.str (orEmpty m.mode)) ++ "\n"
  ++ createRow "" ++ "\n"
  ++ createRow "  Weapons Arsenal:" ++ "\n"
  ++ String.intercalate "\n" ((m.weapons.getD []).map (fun w => createRow ("    ⚡ " ++ w))) ++ "\n"
  ++ createRow "" ++ "\n"
  ++ createRow "  Known Weaknesses:" ++ "\n"
  ++ String.intercalate "\n" ((m.weaknesses.getD []).map (fun w => createRow ("    ⚠️  " ++ w))) ++ "\n"
  ++ createRow "" ++ "\n"
  ++ labelRow "Next Level:" (.str (orEmpty m.next_level)) ++ "\n"
  ++ createRow "" ++ "\n"
  ++ sectionFooter ++ "\n"

/-- The per-project rows pushed by the `forEach` of
`generateProjectsSection` (source lines 322-328); `proj.tech.join` throws
when `tech` is absent; contents are padded by `createRow` but never
truncated. -/
def projectRows : Nat → List Project → Except String (List String)
  | _, [] => .ok []
  | idx, p :: rest => do
    let tech ← formatArray p.tech
    let rs ← projectRows (idx + 1) rest
    .ok ([createRow ("  " ++ toString (idx + 1) ++ ". " ++ interpStr p.name),
          createRow ("     Description: " ++ interpStr p.description),
          createRow ("     Tech Stack:  " ++ tech),
          createRow ("     Status:      " ++ interpStr p.status),
          createRow ""] ++ rs)

/-- `generateProjectsSection` (source lines 319-336): `Object.values` on an
absent collection throws. -/
def generateProjectsSection : Option (List Project) → Except String String
  | none => .error "TypeError: cannot convert undefined to object"
  | some l => do
    let rows ← projectRows 0 l
    .ok ("\n" ++ sectionHeader "📁" "CURRENT PROJECTS" ++ "\n"
      ++ createRow "" ++ "\n"
      ++ String.intercalate "\n" rows ++ "\n"
      ++ sectionFooter ++ "\n")

/-- `generateGoalsSection` (source lines 341-360): `.map` throws when
`goals` or either of its arrays is absent. -/
def generateGoalsSection : Option Goals → Except String String
  | none => .error "TypeError: cannot read properties of undefined"
  | some g =>
    match g.short_term, g.long_term with
    | some st, some lt =>
      .ok ("\n" ++ sectionHeader "🎯" "GOALS & ASPIRATIONS" ++ "\n"
        ++ createRow "" ++ "\n"
        ++ createRow "  Short Term:" ++ "\n"
        ++ String.intercalate "\n" (st.map (fun s => createRow ("    ✓ " ++ s))) ++ "\n"
        ++ createRow "" ++ "\n"
        ++ createRow "  Long Term:" ++ "\n"
        ++ String.intercalate "\n" (lt.map (fun s => createRow ("    ★ " ++ s))) ++ "\n"
        ++ createRow "" ++ "\n"
        ++ sectionFooter ++ "\n")
    | _, _ => .error "TypeError: cannot read properties of undefined"

/-- `generateSocialSection` (source lines 365-381): defensive, cannot
throw. -/
def generateSocialSection (social : Option Social) : String :=
  let s := social.getD ⟨none, none, none, none, none⟩
  "\n" ++ sectionHeader "📞" "CONNECT & COLLABORATE" ++ "\n"
  ++ createRow "" ++ "\n"
  ++ labelRow "GitHub:" (.str (orNA s.github)) ++ "\n"
  ++ labelRow "LinkedIn:" (.str (orNA s.linkedin)) ++ "\n"
  ++ labelRow "Twitter:" (.str (orNA s.twitter)) ++ "\n"
  ++ labelRow "Email:" (.str (orNA s.email)) ++ "\n"
  ++ labelRow "Portfolio:" (.str (orNA s.portfolio)) ++ "\n"
  ++ createRow "" ++ "\n"
  ++ createRow "  Let's collaborate on building scalable systems! 🚀" ++ "\n"
  ++ createRow "" ++ "\n"
  ++ sectionFooter ++ "\n"

/-- `generateFooter` (source lines 386-397); `now` is the frozen full
timestamp `new Date().toISOString()`. -/
def generateFooter (now : String) : String :=
  "\n" ++ doubleHeader ++ "\n"
  ++ doubleRow ("  Last Updated: " ++ now) ++ "\n"
  ++ doubleRow "  Auto-updated daily via GitHub Actions •" ++ "\n"
  ++ doubleRow "" ++ "\n"
  ++ doubleRow "  \"Code today, scale tomorrow\" - Abir Panda" ++ "\n"
  ++ doubleFooter ++ "\n"

/-- The `stats` argument `main` builds for `generateREADME` (source lines
499-502). -/
structure StatsArg where
  github : Option GhStats
  leetcode : Option LcStats

/-- `generateREADME` (source lines 402-424), wrapping the sections in a
yml code fence; the sections that can throw are sequenced in source
order. -/
def generateREADME (profile : Option Profile) (techStack : Option TechStack)
    (mission : Option Mission) (projects : Option (List Project))
    (goals : Option Goals) (social : Option Social) (stats : StatsArg)
    (today now : String) : Except String String := do
  let ps ← generateProfileSection profile
  let ts ← generateTechSection techStack
  let ss ← generateStatsSection stats.github stats.leetcode profile today
  let prs ← generateProjectsSection projects
  let gs ← generateGoalsSection goals
  .ok ("```yml\n" ++ generateMatrixHeader ++ ps ++ ts ++ ss
    ++ generateMissionSection mission ++ prs ++ gs
    ++ generateSocialSection social ++ generateFooter now ++ "\n```")

end V1

-- ═══════════════ V2 renderer (older script), projects section ═══════════════

namespace V2

/-- Required field access: V2 calls a method right on the field
(`.padEnd`, `.slice`, `.join`), which throws when the field is absent. -/
def req {α : Type} : Option α → Except String α
  | some a => .ok a
  | none => .error "TypeError: cannot read properties of undefined"

/-- One project block of the V2 `generateProjectsSection` (source lines
816-822): the description is sliced to 55 UTF-16 units and the tech join
to 50 before `padEnd`. -/
def projectBlock (idx : Nat) (p : Project) : Except String String := do
  let name ← req p.name
  let desc ← req p.description
  let tech ← req p.tech
  let status ← req p.status
  .ok (("│  " ++ toString (idx + 1) ++ ". " ++ padEnd name 67 ++ "  │\n")
    ++ ("│     Description: " ++ padEnd (jsSlice desc 55) 57 ++ "  │\n")
    ++ ("│     Tech Stack:  " ++ padEnd (jsSlice (String.intercalate " • " tech) 50) 57 ++ "  │\n")
    ++ ("│     Status:      " ++ padEnd status 57 ++ "  │\n")
    ++ "│                                                                           │\n")

/-- The `forEach` accumulation over the project list. -/
def projectBlocks : Nat → List Project → Except String String
  | _, [] => .ok ""
  | idx, p :: rest => do
    let b ← projectBlock idx p
    let bs ← projectBlocks (idx + 1) rest
    .ok (b ++ bs)

/-- V2 `generateProjectsSection` (source lines 810-826). -/
def generateProjectsSection : Option (List Project) → Except String String
  | none => .error "TypeError: cannot convert undefined to object"
  | some l => do
    let blocks ← projectBlocks 0 l
    .ok ("\n┌─ 📁 CURRENT PROJECTS ───────────────────────────────────────────────────┐\n│                                                                           │\n"
      ++ blocks
      ++ "└───────────────────────────────────────────────────────────────────────────┘\n")

end V2

-- ═══════════════ String and layout lemmas ═══════════════

theorem strData (a b : String) : (a ++ b).data = a.data ++ b.data := rfl

/-- Substring (contiguous infix) relation on strings. -/
def strInfix (p s : String) : Prop := p.data <:+: s.data

theorem strInfix_self (p : String) : strInfix p p := ⟨[], [], by simp⟩

theorem strInfix_appendL (a : String) {p b : String} (h : strInfix p b) :
    strInfix p (a ++ b) := by
  obtain ⟨u, t, hh⟩ := h
  exact ⟨a.data ++ u, t, by rw [strData, ← hh]; simp⟩

theorem strInfix_appendR (b : String) {p a : String} (h : strInfix p a) :
    strInfix p (a ++ b) := by
  obtain ⟨u, t, hh⟩ := h
  exact ⟨u, t ++ b.data, by rw [strData, ← hh]; simp⟩

theorem strInfix_trans {p q s : String} (h1 : strInfix p q) (h2 : strInfix q s) :
    strInfix p s := List.IsInfix.trans h1 h2

theorem strInfix_of_eq {p q s : String} (h : p = q) (h2 : strInfix q s) :
    strInfix p s := by rw [h]; exact h2

theorem utf16Len_append (a b : String) :
    utf16Len (a ++ b) = utf16Len a + utf16Len b := by
  simp [utf16Len, strData]

theorem utf16Len_mkSpaces (n : Nat) : utf16Len (mkSpaces n) = n := by
  simp [utf16Len, mkSpaces, charW]

theorem utf16Len_padEnd (s : String) (n : Nat) :
    utf16Len (padEnd s n) = max n (utf16Len s) := by
  rw [padEnd, utf16Len_append, utf16Len_mkSpaces]
  omega

theorem utf16Len_createRow (c : String) :
    utf16Len (V1.createRow c) = 2 + max 73 (utf16Len c) := by
  rw [V1.createRow, utf16Len_append, utf16Len_append, utf16Len_padEnd]
  have h : utf16Len "│" = 1 := by decide
  rw [h, V1.CONTENT_WIDTH]
  omega

theorem utf16Take_le (n : Nat) (l : List Char) :
    ((utf16Take n l).map charW).sum ≤ n := by
  induction l generalizing n with
  | nil => simp [utf16Take]
  | cons c cs ih =>
    rw [utf16Take]
    split
    · next h =>
      have h2 := ih (n - charW c)
      simp only [List.map_cons, List.sum_cons]
      omega
    · simp

theorem utf16Len_jsSlice_le (s : String) (n : Nat) : utf16Len (jsSlice s n) ≤ n :=
  utf16Take_le n s.data

theorem mem_utf16Take {c : Char} (n : Nat) (l : List Char)
    (h : c ∈ utf16Take n l) : c ∈ l := by
  induction l generalizing n with
  | nil => simp [utf16Take] at h
  | cons d ds ih =>
    rw [utf16Take] at h
    by_cases hw : charW d ≤ n
    · rw [if_pos hw] at h
      rcases List.mem_cons.mp h with rfl | h2
      · exact List.mem_cons_self _ _
      · exact List.mem_cons_of_mem _ (ih _ h2)
    · rw [if_neg hw] at h
      simp at h

theorem mem_padEnd {c : Char} {s : String} {n : Nat}
    (h : c ∈ (padEnd s n).data) : c ∈ s.data ∨ c = ' ' := by
  rw [padEnd, strData] at h
  rcases List.mem_append.mp h with h | h
  · exact Or.inl h
  · exact Or.inr (List.eq_of_mem_replicate h)

theorem digitChar_isDigit (m : Nat) (h : m < 10) : (Nat.digitChar m).isDigit = true := by
  interval_cases m <;> decide

theorem fixed2OfNat_shape (k : Nat) :
    ∃ (pre : List Char) (d1 d2 : Char),
      (fixed2OfNat k).data = pre ++ ['.', d1, d2] ∧
      d1.isDigit = true ∧ d2.isDigit = true := by
  refine ⟨(toString (k / 100)).data, Nat.digitChar (k % 100 / 10 % 10),
    Nat.digitChar (k % 100 % 10), ?_, ?_, ?_⟩
  · show ((toString (k / 100) ++ "." ++ twoDigits (k % 100))).data = _
    simp [strData, twoDigits, List.append_assoc]
  · exact digitChar_isDigit _ (Nat.mod_lt _ (by omega))
  · exact digitChar_isDigit _ (Nat.mod_lt _ (by omega))

theorem toFixed2_shape (x : JsNum) :
    ∃ (pre : List Char) (d1 d2 : Char),
      (toFixed2 x).data = pre ++ ['.', d1, d2] ∧
      d1.isDigit = true ∧ d2.isDigit = true := by
  unfold toFixed2
  split
  · obtain ⟨pre, d1, d2, h, h1, h2⟩ := fixed2OfNat_shape (round100 (-x.num) x.den).toNat
    exact ⟨'-' :: pre, d1, d2, by rw [strData, h]; simp, h1, h2⟩
  · exact fixed2OfNat_shape _

theorem jsOr_js0_not_nan : ∀ x : JsVal, jsOr x js0 ≠ .nan
  | .undefined => fun h => JsVal.noConfusion h
  | .null => fun h => JsVal.noConfusion h
  | .nan => fun h => JsVal.noConfusion h
  | .num q => by
    unfold jsOr
    split <;> exact fun h => JsVal.noConfusion h
  | .bool b => by
    unfold jsOr
    split <;> exact fun h => JsVal.noConfusion h
  | .str s => by
    unfold jsOr
    split <;> exact fun h => JsVal.noConfusion h
  | .obj fs => by
    unfold jsOr
    split <;> exact fun h => JsVal.noConfusion h

theorem toFixedJs_ok_num {y : JsVal} {a : String} (hn : y ≠ .nan)
    (h : toFixedJs y = .ok a) : ∃ q : JsNum, y = .num q ∧ a = toFixed2 q := by
  cases y with
  | num q =>
    refine ⟨q, rfl, ?_⟩
    have := Except.ok.inj h
    exact this.symm
  | nan => exact absurd rfl hn
  | undefined => exact absurd h (by simp [toFixedJs])
  | null => exact absurd h (by simp [toFixedJs])
  | bool b => exact absurd h (by simp [toFixedJs])
  | str s => exact absurd h (by simp [toFixedJs])
  | obj fs => exact absurd h (by simp [toFixedJs])

theorem strInfix_padEnd (p s : String) (n : Nat) (h : strInfix p s) :
    strInfix p (padEnd s n) :=
  strInfix_appendR _ h

theorem strInfix_createRow (p c : String) (h : strInfix p c) :
    strInfix p (V1.createRow c) :=
  strInfix_appendR _ (strInfix_appendL _ (strInfix_padEnd _ _ _ h))

/-- The full label-plus-value text is a substring of its `statRow`. -/
theorem strInfix_statRow_labelval (label : String) (v : JsVal) :
    strInfix (padEnd label 18 ++ jsValToString v) (V1.statRow label v) :=
  strInfix_createRow _ _
    ⟨"  │  ".data, [], by simp [strData, List.append_assoc]⟩

/-- The rendered value text is a substring of its `statRow`. -/
theorem strInfix_statRow_val (label : String) (v : JsVal) :
    strInfix (jsValToString v) (V1.statRow label v) :=
  strInfix_createRow _ _
    ⟨("  │  " ++ padEnd label 18).data, [], by simp [strData, List.append_assoc]⟩

/-- Splitter on newline characters (for counting rendered line widths). -/
def splitNL : List Char → List (List Char)
  | [] => [[]]
  | c :: cs =>
    match splitNL cs with
    | [] => [[c]]
    | h :: t => if c = '\n' then [] :: h :: t else (c :: h) :: t

-- ═══════════════ Claims C5 and C8 ═══════════════

/-- A profile whose name is 80 characters long. -/
def pBig : Profile :=
  ⟨some ⟨List.replicate 80 'a'⟩, some "t", some "loc", some ⟨19, 1⟩, some "tz", some "tag"⟩

/-- The profile box rendered for `pBig`. -/
def c5Section : String := ((V1.generateProfileSection (some pBig)).toOption).getD ""

set_option maxRecDepth 100000 in
/-- Counterexample to claim C5: two interior content lines of a rendered
profile box have different lengths — the header line has 75 UTF-16 units
but the name line has 102, because `createRow` pads with `padEnd` and
never truncates overlong content. -/
theorem C5_counterexample :
    ((splitNL c5Section.data).map (fun l => (l.map charW).sum))[1]? = some 75 ∧
    ((splitNL c5Section.data).map (fun l => (l.map charW).sum))[3]? = some 102 := by
  constructor <;> decide

/-- Claim C5 as amended: every interior content line is built by
`createRow`, which pads its content with trailing spaces to the fixed
content width 73 and wraps it in border characters, but never truncates:
the line length is `2 + max 73 (content length)` in UTF-16 units, so all
lines share the common length 75 exactly when their content is at most 73
units wide, while overlong content yields a longer line. -/
theorem C5_amended_row_width :
    ∀ c : String,
      utf16Len (V1.createRow c) = 2 + max 73 (utf16Len c) ∧
      (utf16Len c ≤ 73 → utf16Len (V1.createRow c) = 75) := by
  intro c
  have h := utf16Len_createRow c
  exact ⟨h, fun hc => by rw [h]; omega⟩

/-- Witness for C5's amended claim at an in-budget content string. -/
theorem C5_amended_witness :
    utf16Len "  Tagline:" ≤ 73 ∧ utf16Len (V1.createRow "  Tagline:") = 75 :=
  ⟨by decide, (C5_amended_row_width "  Tagline:").2 (by decide)⟩

/-- Claim C8: rendering is deterministic — the renderer is a pure function
of the record and the frozen clock readings, so equal inputs give
byte-identical documents. -/
theorem C8_render_deterministic :
    ∀ (p₁ p₂ : Option Profile) (t₁ t₂ : Option TechStack) (m₁ m₂ : Option Mission)
      (pr₁ pr₂ : Option (List Project)) (g₁ g₂ : Option Goals) (s₁ s₂ : Option Social)
      (st₁ st₂ : V1.StatsArg) (d₁ d₂ n₁ n₂ : String),
      p₁ = p₂ → t₁ = t₂ → m₁ = m₂ → pr₁ = pr₂ → g₁ = g₂ → s₁ = s₂ → st₁ = st₂ →
      d₁ = d₂ → n₁ = n₂ →
      V1.generateREADME p₁ t₁ m₁ pr₁ g₁ s₁ st₁ d₁ n₁ =
        V1.generateREADME p₂ t₂ m₂ pr₂ g₂ s₂ st₂ d₂ n₂ := by
  intro p₁ p₂ t₁ t₂ m₁ m₂ pr₁ pr₂ g₁ g₂ s₁ s₂ st₁ st₂ d₁ d₂ n₁ n₂
  intro h1 h2 h3 h4 h5 h6 h7 h8 h9
  subst h1; subst h2; subst h3; subst h4; subst h5; subst h6; subst h7
  subst h8; subst h9
  rfl

/-- Witness for C8 at one concrete record and clock. -/
theorem C8_witness :
    V1.generateREADME none none none none none none ⟨none, none⟩ "2026-02-03" "T" =
      V1.generateREADME none none none none none none ⟨none, none⟩ "2026-02-03" "T" :=
  C8_render_deterministic none none none none none none none none none none
    none none ⟨none, none⟩ ⟨none, none⟩ "2026-02-03" "2026-02-03" "T" "T"
    rfl rfl rfl rfl rfl rfl rfl rfl rfl

-- ═══════════════ Claims C9 and C2 ═══════════════

/-- Claim C9: in every successfully rendered live-metrics box the
acceptance-rate field appears as the coerced rate stringified by
`toFixed(2)` — an integer part, a point and exactly two decimal digits —
suffixed with a percent sign. -/
theorem C9_acceptance_rate_format :
    ∀ (github : Option GhStats) (leetcode : Option LcStats) (profile : Option Profile)
      (today s : String),
      V1.generateStatsSection github leetcode profile today = .ok s →
      ∃ q : JsNum,
        jsOr (optGet (leetcode.getD V1.lcRenderDefault).acceptance_rate) js0 = .num q ∧
        strInfix (toFixed2 q ++ "%") s ∧
        ∃ (pre : List Char) (d1 d2 : Char),
          (toFixed2 q).data = pre ++ ['.', d1, d2] ∧
          d1.isDigit = true ∧ d2.isDigit = true := by
  intro github leetcode profile today s h
  simp only [V1.generateStatsSection] at h
  cases hm : toFixedJs (jsOr (optGet (leetcode.getD V1.lcRenderDefault).acceptance_rate) js0) with
  | error e =>
    rw [hm] at h
    exact absurd h (by simp)
  | ok a =>
    rw [hm] at h
    simp only [] at h
    obtain ⟨q, hq, ha⟩ := toFixedJs_ok_num (jsOr_js0_not_nan _) hm
    subst ha
    refine ⟨q, hq, ?_, toFixed2_shape q⟩
    rw [← Except.ok.inj h]
    apply strInfix_appendR
    apply strInfix_appendR
    apply strInfix_appendR
    apply strInfix_appendR
    apply strInfix_appendR
    apply strInfix_appendR
    apply strInfix_appendR
    apply strInfix_appendL
    exact strInfix_statRow_val "Acceptance Rate:" (.str (toFixed2 q ++ "%"))

/-- Witness for C9 at a concrete (all-defaulted) metrics box. -/
theorem C9_witness :
    ∃ q : JsNum,
      jsOr (optGet (((none : Option LcStats)).getD V1.lcRenderDefault).acceptance_rate) js0 = .num q ∧
      strInfix (toFixed2 q ++ "%")
        ((V1.generateStatsSection none none none "2026-02-03").toOption.getD "") ∧
      ∃ (pre : List Char) (d1 d2 : Char),
        (toFixed2 q).data = pre ++ ['.', d1, d2] ∧
        d1.isDigit = true ∧ d2.isDigit = true :=
  C9_acceptance_rate_format none none none "2026-02-03"
    ((V1.generateStatsSection none none none "2026-02-03").toOption.getD "") rfl

/-- The host-stats payload of the C2 scenario. -/
def ghPayload : JsVal :=
  .obj [("followers", .num ⟨8, 1⟩), ("following", .num ⟨5, 1⟩),
        ("public_repos", .num ⟨45, 1⟩)]

/-- The practice-stats payload of the C2 scenario. -/
def lcPayload : JsVal :=
  .obj [("status", .str "success"), ("totalSolved", .num ⟨145, 1⟩),
        ("easySolved", .num ⟨63, 1⟩), ("mediumSolved", .num ⟨75, 1⟩),
        ("hardSolved", .num ⟨7, 1⟩), ("acceptanceRate", .num ⟨523, 10⟩)]

/-- The contribution-search payload of the C2 scenario. -/
def contribPayload : JsVal := .obj [("total_count", .num ⟨310, 1⟩)]

/-- The record `main` produces in the C2 scenario: collectors run on the
three payloads and their results merged into an initially empty record. -/
def c2Merged (today : String) : ProfileData :=
  mergeProfile pdEmpty (fetchGitHubStats (.payload ghPayload))
    (fetchLeetCodeStats (.payload lcPayload))
    (fetchContributions (.payload contribPayload)) today

/-- Claim C2: with the scenario payloads, the merged record has
`github_stats.followers = 8`, `leetcode_stats.total_solved = 145` and
`github_stats.total_contributions = 310`, both stat sub-records are
stamped with the current UTC date (the frozen `today`), and the rendered
metrics box shows `145` for Total Solved and `52.30%` for the acceptance
rate. -/
theorem C2_scenario_merge_and_render :
    ∀ today : String,
      (c2Merged today).github_stats =
        some ⟨some (.num ⟨8, 1⟩), some (.num ⟨5, 1⟩), some (.num ⟨45, 1⟩),
              some (.num ⟨45, 1⟩), some (.num ⟨310, 1⟩), some today⟩ ∧
      (c2Merged today).leetcode_stats =
        some ⟨some (.num ⟨145, 1⟩), some (.num ⟨63, 1⟩), some (.num ⟨75, 1⟩),
              some (.num ⟨7, 1⟩), some (.num ⟨523, 10⟩), some today⟩ ∧
      ∃ s, V1.generateStatsSection (c2Merged today).github_stats
            (c2Merged today).leetcode_stats (c2Merged today).profile today = .ok s ∧
        strInfix "Total Solved:     145" s ∧ strInfix "52.30%" s := by
  intro today
  refine ⟨rfl, rfl, _, rfl, ?_, ?_⟩
  · apply strInfix_appendR
    apply strInfix_appendR
    apply strInfix_appendR
    apply strInfix_appendR
    apply strInfix_appendR
    apply strInfix_appendR
    apply strInfix_appendR
    apply strInfix_appendR
    apply strInfix_appendR
    apply strInfix_appendR
    apply strInfix_appendR
    apply strInfix_appendR
    apply strInfix_appendR
    apply strInfix_appendR
    apply strInfix_appendR
    apply strInfix_appendL
    exact strInfix_of_eq
      (show "Total Solved:     145" = padEnd "Total Solved:" 18 ++ jsValToString
          (jsOr (optGet (((c2Merged today).leetcode_stats).getD V1.lcRenderDefault).total_solved) js0)
        from rfl)
      (strInfix_statRow_labelval "Total Solved:" _)
  · apply strInfix_appendR
    apply strInfix_appendR
    apply strInfix_appendR
    apply strInfix_appendR
    apply strInfix_appendR
    apply strInfix_appendR
    apply strInfix_appendR
    apply strInfix_appendL
    exact strInfix_of_eq
      (show "52.30%" = jsValToString (.str (toFixed2 ⟨523, 10⟩ ++ "%")) from rfl)
      (strInfix_statRow_val "Acceptance Rate:" _)

-- ═══════════════ Claim C6 ═══════════════

/-- A 100-character project description. -/
def c6Desc : String := ⟨List.replicate 100 'a'⟩

/-- A project carrying the overlong description. -/
def c6Proj : Project := ⟨some "P", some c6Desc, some ["T"], some "done"⟩

set_option maxRecDepth 100000 in
/-- Counterexample to claim C6: the current (V1) projects renderer does
NOT truncate overlong descriptions — the full 100-character description
appears verbatim in the rendered section, exceeding any fixed budget (the
V2 renderer's budget is 55). -/
theorem C6_counterexample :
    strInfix c6Desc ((V1.generateProjectsSection (some [c6Proj])).toOption.getD "") ∧
    55 < utf16Len c6Desc := by
  constructor
  · show c6Desc.data <:+: ((V1.generateProjectsSection (some [c6Proj])).toOption.getD "").data
    decide
  · decide

/-- Claim C6 as amended: the older (V2) renderer truncates project
descriptions to 55 UTF-16 units and project tech-stack joins to 50 before
padding, and such a field occupies a single bordered line (no wrapping, as
long as the text itself has no newline); the current (V1) renderer keeps
both texts whole — padding without truncation — also on one line per
field. -/
theorem C6_amended_truncation :
    ∀ d t : String, '\n' ∉ d.data → '\n' ∉ t.data →
      utf16Len (jsSlice d 55) ≤ 55 ∧
      utf16Len (jsSlice (String.intercalate " • " [t]) 50) ≤ 50 ∧
      (∃ s2, V2.generateProjectsSection (some [⟨some "P", some d, some [t], some "ok"⟩]) = .ok s2 ∧
        strInfix ("│     Description: " ++ padEnd (jsSlice d 55) 57 ++ "  │\n") s2 ∧
        strInfix ("│     Tech Stack:  " ++ padEnd (jsSlice (String.intercalate " • " [t]) 50) 57 ++ "  │\n") s2) ∧
      (∃ s1, V1.generateProjectsSection (some [⟨some "P", some d, some [t], some "ok"⟩]) = .ok s1 ∧
        strInfix d s1 ∧ strInfix t s1) ∧
      '\n' ∉ (padEnd (jsSlice d 55) 57).data := by
  intro d t hd ht
  refine ⟨utf16Len_jsSlice_le d 55, utf16Len_jsSlice_le _ 50, ⟨_, rfl, ?_, ?_⟩,
    ⟨_, rfl, ?_, ?_⟩, ?_⟩
  · -- V2 description row, exactly as built
    apply strInfix_appendR
    apply strInfix_appendL
    apply strInfix_appendR
    apply strInfix_appendR
    apply strInfix_appendR
    apply strInfix_appendR
    apply strInfix_appendL
    exact strInfix_self _
  · -- V2 tech row, exactly as built
    apply strInfix_appendR
    apply strInfix_appendL
    apply strInfix_appendR
    apply strInfix_appendR
    apply strInfix_appendR
    apply strInfix_appendL
    exact strInfix_self _
  · -- V1 keeps the description whole
    apply strInfix_appendR
    apply strInfix_appendR
    apply strInfix_appendR
    apply strInfix_appendL
    apply strInfix_appendR
    apply strInfix_appendR
    apply strInfix_appendR
    apply strInfix_appendR
    apply strInfix_appendR
    apply strInfix_appendR
    apply strInfix_appendL
    exact strInfix_createRow _ _ (strInfix_appendL _ (strInfix_self d))
  · -- V1 keeps the tech join whole
    apply strInfix_appendR
    apply strInfix_appendR
    apply strInfix_appendR
    apply strInfix_appendL
    apply strInfix_appendR
    apply strInfix_appendR
    apply strInfix_appendR
    apply strInfix_appendR
    apply strInfix_appendL
    exact strInfix_createRow _ _ (strInfix_appendL _ (strInfix_self t))
  · -- the truncated, padded description holds no newline: single line
    intro h
    rcases mem_padEnd h with h2 | h2
    · exact hd (mem_utf16Take 55 d.data h2)
    · exact absurd h2 (by decide)

/-- Witness for C6's amended claim at concrete newline-free fields. -/
theorem C6_amended_witness :
    utf16Len (jsSlice "alpha" 55) ≤ 55 ∧
    utf16Len (jsSlice (String.intercalate " • " ["T"]) 50) ≤ 50 ∧
    (∃ s2, V2.generateProjectsSection (some [⟨some "P", some "alpha", some ["T"], some "ok"⟩]) = .ok s2 ∧
      strInfix ("│     Description: " ++ padEnd (jsSlice "alpha" 55) 57 ++ "  │\n") s2 ∧
      strInfix ("│     Tech Stack:  " ++ padEnd (jsSlice (String.intercalate " • " ["T"]) 50) 57 ++ "  │\n") s2) ∧
    (∃ s1, V1.generateProjectsSection (some [⟨some "P", some "alpha", some ["T"], some "ok"⟩]) = .ok s1 ∧
      strInfix "alpha" s1 ∧ strInfix "T" s1) ∧
    '\n' ∉ (padEnd (jsSlice "alpha" 55) 57).data :=
  C6_amended_truncation "alpha" "T" (by decide) (by decide)

-- ═══════════════ Claim C4 ═══════════════

/-- A complete profile sub-record. -/
def c4Profile : Profile :=
  ⟨some "Abir", some "Dev", some "India", some ⟨19, 1⟩, some "IST", some "ship"⟩

/-- A complete tech stack. -/
def c4Tech : TechStack :=
  ⟨some ["Py"], some ["React"], some ["Node"], some ["PG"], some ["Git"]⟩

/-- A complete one-project list. -/
def c4Projects : List Project := [⟨some "P", some "D", some ["T"], some "ok"⟩]

/-- Counterexample to claim C4: the renderer DOES fail on a record shape
covered by the data model — with the optional `goals` sub-record absent
(everything else present), `goals.short_term.map` throws and
`generateREADME` returns an error instead of a document. -/
theorem C4_counterexample :
    (V1.generateREADME (some c4Profile) (some c4Tech) none (some c4Projects) none none
      ⟨none, none⟩ "2026-02-03" "T").toOption = none := rfl

theorem projectRows_ok (l : List Project) : ∀ idx : Nat,
    (∀ pr ∈ l, ∃ tech, pr.tech = some tech) →
    ∃ rs, V1.projectRows idx l = .ok rs := by
  induction l with
  | nil => exact fun idx _ => ⟨[], rfl⟩
  | cons p rest ih =>
    intro idx h
    obtain ⟨tech, htech⟩ := h p (List.mem_cons_self p rest)
    obtain ⟨rs, hrs⟩ := ih (idx + 1) (fun pr hm => h pr (List.mem_cons_of_mem p hm))
    exact ⟨_, by unfold V1.projectRows; rw [htech, hrs]; exact rfl⟩

theorem generateStatsSection_ok_of (gh : Option GhStats) (lc : LcStats)
    (profile : Option Profile) (today : String) (a : String)
    (ha : toFixedJs (jsOr (optGet lc.acceptance_rate) js0) = .ok a) :
    ∃ ss, V1.generateStatsSection gh (some lc) profile today = .ok ss := by
  exact ⟨_, by unfold V1.generateStatsSection; simp only [Option.getD_some]; rw [ha]⟩

/-- Claim C4 as amended: rendering is total — producing a document with
every scalar field defaulted — provided the structurally required parts
are present: the `profile` sub-record itself, `tech_stack` with its five
arrays, `current_projects` with a `tech` array in every project, `goals`
with both arrays, and a stored acceptance rate on which `toFixed` is
defined (absent or numeric).  `current_mission`, `social` and the two stat
sub-records may be absent entirely; missing scalar fields fall back to
defaults ("undefined", "N/A", "", 0) rather than failing. -/
theorem C4_amended_render_totality :
    ∀ (p : Profile) (tl tf tb td tt : List String) (mission : Option Mission)
      (projects : List Project) (st lt : List String) (social : Option Social)
      (stats : V1.StatsArg) (today tnow : String),
      (∀ pr ∈ projects, ∃ tech, pr.tech = some tech) →
      (∀ lc, stats.leetcode = some lc →
        ∃ a, toFixedJs (jsOr (optGet lc.acceptance_rate) js0) = .ok a) →
      ∃ doc, V1.generateREADME (some p) (some ⟨some tl, some tf, some tb, some td, some tt⟩)
          mission (some projects) (some ⟨some st, some lt⟩) social stats today tnow =
        .ok doc := by
  intro p tl tf tb td tt mission projects st lt social stats today tnow hTech hAcc
  obtain ⟨ss, hss⟩ : ∃ ss, V1.generateStatsSection stats.github stats.leetcode
      (some p) today = .ok ss := by
    cases hsl : stats.leetcode with
    | none => exact ⟨_, rfl⟩
    | some lc =>
      obtain ⟨a, ha⟩ := hAcc lc hsl
      obtain ⟨ss, h2⟩ := generateStatsSection_ok_of stats.github lc (some p) today a ha
      exact ⟨ss, h2⟩
  obtain ⟨prs, hprs⟩ : ∃ prs, V1.generateProjectsSection (some projects) = .ok prs := by
    obtain ⟨rs, hrs⟩ := projectRows_ok projects 0 hTech
    exact ⟨_, by simp only [V1.generateProjectsSection]; rw [hrs]; exact rfl⟩
  exact ⟨_, by unfold V1.generateREADME; rw [hss, hprs]; exact rfl⟩

/-- Witness for C4's amended claim at a fully populated concrete record. -/
theorem C4_amended_witness :
    ∃ doc, V1.generateREADME (some c4Profile) (some c4Tech) none (some c4Projects)
        (some ⟨some ["g1"], some ["g2"]⟩) none ⟨none, none⟩ "2026-02-03" "T" =
      .ok doc :=
  C4_amended_render_totality c4Profile ["Py"] ["React"] ["Node"] ["PG"] ["Git"] none
    c4Projects ["g1"] ["g2"] none ⟨none, none⟩ "2026-02-03" "T"
    (by intro pr hm; simp [c4Projects] at hm; subst hm; exact ⟨["T"], rfl⟩)
    (fun lc h => Option.noConfusion h)
